import Mathlib

/-!
# Verification of the gravity-heist simulation core (`src/game.js`)

Shallow embedding of the data model and per-tick operations of `game.js`,
together with theorems settling the specification claims.

Conventions used throughout:
* JS floating-point numbers are modelled as exact rationals (`ℚ`) wherever the
  source only adds, multiplies, compares and clamps them; values that are
  genuinely irrational in the source (`Math.sin`/`Math.cos` of the gravity
  rotation angle, `Math.PI`-based platform placement) are modelled over `ℝ`.
* The source compares Euclidean lengths against constants
  (`vec.length() < c`, `a.distanceTo(b) < c`).  Since both sides are
  nonnegative this is equivalent to comparing squares
  (`‖v‖ < c ↔ ‖v‖² < c²`), and we embed the squared form so the predicates
  stay decidable over `ℚ`.  Each such place is marked with a comment.
* `gameState.gravityMagnitude` is set by the source to `vec.length()`; we carry
  its square `gravityMagSq = ‖vec‖²` (the length itself is irrational for the
  SIDEWAYS/DIAGONAL zone vectors); `gravityMagnitude = √gravityMagSq`.
-/

namespace GravityHeist

/-- A 3-component vector with exact rational components (models `THREE.Vector3`
in the places where the source only does field arithmetic on it). -/
structure Vec3 where
  x : ℚ
  y : ℚ
  z : ℚ
deriving DecidableEq, Repr

namespace Vec3

/-- Componentwise addition (`THREE.Vector3.add`). -/
def vadd (a b : Vec3) : Vec3 := ⟨a.x + b.x, a.y + b.y, a.z + b.z⟩

/-- Scalar multiplication (`THREE.Vector3.multiplyScalar`). -/
def smul (c : ℚ) (a : Vec3) : Vec3 := ⟨c * a.x, c * a.y, c * a.z⟩

/-- Dot product (`THREE.Vector3.dot`). -/
def dotv (a b : Vec3) : ℚ := a.x * b.x + a.y * b.y + a.z * b.z

/-- Squared Euclidean length; the source's `v.length()` is `√(normSq v)`. -/
def normSq (a : Vec3) : ℚ := a.x * a.x + a.y * a.y + a.z * a.z

/-- Squared distance between two points; the source's `a.distanceTo(b)` is
`√(distSq a b)`. -/
def distSq (a b : Vec3) : ℚ := normSq ⟨a.x - b.x, a.y - b.y, a.z - b.z⟩

/-- Squared length of the horizontal (x,z) separation; the source's
`new THREE.Vector2(ax-bx, az-bz).length()` is `√(distXZSq a b)`. -/
def distXZSq (a b : Vec3) : ℚ := (a.x - b.x) * (a.x - b.x) + (a.z - b.z) * (a.z - b.z)

end Vec3

open Vec3

/-- A 3-component vector over `ℝ`, for the places where the source produces
irrational components (`Math.sin`/`Math.cos`, `lerp` with a `√`-derived
weight). -/
structure RVec3 where
  x : ℝ
  y : ℝ
  z : ℝ

namespace RVec3

/-- Squared Euclidean length over `ℝ`. -/
def normSqR (a : RVec3) : ℝ := a.x * a.x + a.y * a.y + a.z * a.z

/-- Models `THREE.Vector3.lerp(b, t)`: componentwise `a + (b - a) * t`. -/
def lerpR (a b : RVec3) (t : ℝ) : RVec3 :=
  ⟨a.x + (b.x - a.x) * t, a.y + (b.y - a.y) * t, a.z + (b.z - a.z) * t⟩

end RVec3

/-- Coercion of an exact-rational vector into the real-valued model. -/
def toR (v : Vec3) : RVec3 := ⟨(v.x : ℝ), (v.y : ℝ), (v.z : ℝ)⟩

/-! ## Movement application (`animate`, game.js lines 1068–1081)

Per frame the source damps the horizontal intent velocity, adds the
input-derived speed, and then applies

  `controls.moveRight(-velocity.x * delta); controls.moveForward(-velocity.z * delta);`

`PointerLockControls.moveRight` displaces the camera along the camera matrix's
x-column `r`, and `moveForward` along `camera.up × r`.  The camera is a
yaw/pitch (`YXZ`) camera with `camera.up = (0,1,0)` (never changed by
`game.js`), so `r = (cos yaw, 0, -sin yaw)`: a *horizontal* unit vector.  We
parametrise the embedding by the components `rx, rz` of that horizontal right
vector. -/

/-- The displacement vector used by `controls.moveRight`: the camera matrix
x-column `(rx, 0, rz)`. -/
def moveRightVec (rx rz : ℚ) : Vec3 := ⟨rx, 0, rz⟩

/-- The displacement vector used by `controls.moveForward`:
`up × r = (0,1,0) × (rx,0,rz) = (rz, 0, -rx)`. -/
def moveForwardVec (rx rz : ℚ) : Vec3 := ⟨rz, 0, -rx⟩

/-- One frame's damping of an intent-velocity component
(`velocity.x -= velocity.x * 10.0 * delta`, game.js lines 1068–1069). -/
def dampVel (v delta : ℚ) : ℚ := v - v * 10 * delta

/-- Input-derived acceleration of an intent-velocity component
(`velocity.z -= direction.z * speed * delta`, game.js lines 1077–1078);
`speed` is 30 when sprinting, else 15 (line 1075). -/
def accelVel (v dir speed delta : ℚ) : ℚ := v - dir * speed * delta

/-- The total positional displacement applied to the player by the movement
stage of one frame (game.js lines 1080–1081):
`moveRight(-velocity.x * delta)` followed by `moveForward(-velocity.z * delta)`. -/
def appliedMove (velx velz delta rx rz : ℚ) : Vec3 :=
  vadd (smul (-velx * delta) (moveRightVec rx rz))
       (smul (-velz * delta) (moveForwardVec rx rz))

/-! ## Fixed-step physics integration (`animate`, game.js lines 1035, 1056–1060)

`const delta = 0.016 * gameState.timeWarp;` then
`gravityForce = gravity.clone().multiplyScalar(0.5 * gravityMagnitude * delta)`,
`velocity.add(gravityForce)`, `position.add(velocity.clone().multiplyScalar(delta))`.

Here `gravityMagnitude` enters linearly, so we keep it as a state field (in the
situations evaluated below it is rational). -/

/-- The per-frame integration step size (game.js line 1035):
`0.016 * gameState.timeWarp`. -/
def physDelta (timeWarp : ℚ) : ℚ := (16 / 1000) * timeWarp

/-- The slice of `gameState` read and written by the physics integration. -/
structure PhysState where
  gravity : Vec3
  gravityMagnitude : ℚ
  timeWarp : ℚ
  velocity : Vec3
  position : Vec3
deriving DecidableEq, Repr

/-- The gravity/velocity/position integration of one frame
(game.js lines 1056–1060). -/
def physicsStep (s : PhysState) : PhysState :=
  let delta := physDelta s.timeWarp
  let gravityForce := smul ((1 / 2) * s.gravityMagnitude * delta) s.gravity
  let v := vadd s.velocity gravityForce
  let p := vadd s.position (smul delta v)
  { s with velocity := v, position := p }

/-- Guard patrol displacement magnitude per frame
(`const moveSpeed = userData.speed * gameState.timeWarp`, game.js line 560). -/
def guardMoveSpeed (speed timeWarp : ℚ) : ℚ := speed * timeWarp

/-- Loot cosmetic rotation increment per frame
(`loot.rotation.y += loot.userData.rotationSpeed * gameState.timeWarp`,
game.js line 1048). -/
def lootRotationDelta (rotationSpeed timeWarp : ℚ) : ℚ := rotationSpeed * timeWarp

/-! ## Gravity rotation controls (`animate`, game.js lines 1092–1101)

```
if (moveState.rotateGravityLeft) {
    gameState.gravityRotation += GRAVITY_ROTATION_SPEED;
    const angle = gameState.gravityRotation;
    gameState.gravity.set(Math.sin(angle), -Math.cos(angle), 0);
}
if (moveState.rotateGravityRight) { ... -= ... same update ... }
```

There is no time-stamp, cooldown counter, or any other state consulted before
applying a request: this branch runs on every frame in which the key is held. -/

/-- Source constant `GRAVITY_ROTATION_SPEED = 0.05` (game.js line 5). -/
noncomputable def GRAVITY_ROTATION_SPEED : ℝ := 5 / 100

/-- The rotation-facing slice of `gameState`: the accumulated rotation angle
and the gravity vector. -/
structure RotState where
  gravityRotation : ℝ
  gravity : RVec3

/-- The gravity vector written for a rotation angle `a`:
`gravity.set(Math.sin(angle), -Math.cos(angle), 0)` (game.js lines 1095, 1100). -/
noncomputable def gravityOfRot (a : ℝ) : RVec3 := ⟨Real.sin a, -Real.cos a, 0⟩

/-- One frame's processing of the two gravity-rotation request flags
(game.js lines 1092–1101); both `if` blocks are applied in source order. -/
noncomputable def applyRotationControls (rotLeft rotRight : Bool) (s : RotState) : RotState :=
  let s1 := if rotLeft then
      let a := s.gravityRotation + GRAVITY_ROTATION_SPEED
      ⟨a, gravityOfRot a⟩
    else s
  if rotRight then
    let a := s1.gravityRotation - GRAVITY_ROTATION_SPEED
    ⟨a, gravityOfRot a⟩
  else s1

/-! ## Zone effect resolution (`checkZones`, game.js lines 764–820)

The function starts from hard-coded defaults
(`gravity.set(0,-1,0); gravityMagnitude = 1.0; timeWarp = 1.0`) and then
iterates the gravity zones (each overlapping zone overwrites gravity and its
magnitude), the sentinel guards (each nearby gravity field is `lerp`ed into
gravity), and the time zones (each overlapping zone overwrites the time-warp
scalar).  No field of the previous tick's state is read. -/

/-- A gravity zone: a cylinder of radius 5 and half-height 10 around `pos`,
carrying the zone's fixed `userData.gravityVector`
(generated in `generateGravityZones`, game.js lines 295–335). -/
structure GravityZone where
  pos : Vec3
  vec : Vec3
deriving DecidableEq, Repr

/-- A time-fracture zone: effective within 3-D distance 5 of `pos`, carrying
`userData.timeWarp` (generated in `generateTimeZones`, game.js lines 337–377). -/
structure TimeZone where
  pos : Vec3
  warp : ℚ
deriving DecidableEq, Repr

/-- The zone-relevant slice of a sentinel guard: its position and the optional
`userData.gravityField` set by `updateAI` (game.js lines 520–530). -/
structure SentinelGuard where
  pos : Vec3
  gravityField : Option Vec3
deriving DecidableEq, Repr

/-- Gravity-zone overlap test (game.js lines 774–779):
`new THREE.Vector2(px - zx, pz - zz).length() < 5 && |py - zy| < 10`;
the length comparison is embedded squared (`‖·‖ < 5 ↔ ‖·‖² < 25`). -/
def gravityZoneOverlaps (p : Vec3) (z : GravityZone) : Prop :=
  distXZSq p z.pos < 25 ∧ |p.y - z.pos.y| < 10

instance : DecidablePred (gravityZoneOverlaps p) := fun z => by
  unfold gravityZoneOverlaps; infer_instance

/-- Time-zone overlap test (game.js lines 800–802):
`playerPos.distanceTo(zone.position) < 5`, embedded squared. -/
def timeZoneOverlaps (p : Vec3) (z : TimeZone) : Prop := distSq p z.pos < 25

instance : DecidablePred (timeZoneOverlaps p) := fun z => by
  unfold timeZoneOverlaps; infer_instance

/-- The gravity-zone pass (game.js lines 768–784): defaults
`gravity = (0,-1,0)`, `gravityMagnitude = 1.0`, each overlapping zone
overwriting both.  The magnitude is carried squared: the source stores
`gravityMagnitude = vec.length()`, we store `‖vec‖²` (default `1² = 1`). -/
def resolveGravityZones (zones : List GravityZone) (p : Vec3) : Vec3 × ℚ :=
  zones.foldl
    (fun acc z => if gravityZoneOverlaps p z then (z.vec, normSq z.vec) else acc)
    (⟨0, -1, 0⟩, 1)

/-- The time-zone pass (game.js lines 770, 799–812): default `timeWarp = 1.0`,
each overlapping zone overwriting it. -/
def resolveTimeWarp (zones : List TimeZone) (p : Vec3) : ℚ :=
  zones.foldl (fun acc z => if timeZoneOverlaps p z then z.warp else acc) 1

/-- The sentinel gravity-field pass (game.js lines 787–796): for each sentinel
with a recorded `gravityField` within distance 15,
`influence = 1 - distToGuard / 15` and `gravity.lerp(field, influence * 0.5)`.
The distance comparison is embedded squared; the lerp weight needs the true
distance `√(distSq)`, hence the `ℝ`-valued gravity. -/
noncomputable def applySentinelFields (guards : List SentinelGuard) (p : Vec3)
    (g : RVec3) : RVec3 :=
  guards.foldl
    (fun acc gd =>
      match gd.gravityField with
      | none => acc
      | some f =>
        if distSq gd.pos p < 225 then
          RVec3.lerpR acc (toR f) ((1 - Real.sqrt ((distSq gd.pos p : ℚ) : ℝ) / 15) * (1 / 2))
        else acc)
    g

/-- The zone-effect slice of `gameState` written by `checkZones`. -/
structure ZoneState where
  gravity : RVec3
  gravityMagSq : ℚ
  timeWarp : ℚ

/-- Full `checkZones` (game.js lines 764–820).  The previous tick's state `s` is
taken as an argument to mirror the in-place mutation of `gameState`, but —
exactly as in the source, which resets all three fields before reading any
zone — no field of `s` is consulted. -/
noncomputable def checkZones (gzones : List GravityZone) (tzones : List TimeZone)
    (sentinels : List SentinelGuard) (p : Vec3) (_s : ZoneState) : ZoneState :=
  let zg := resolveGravityZones gzones p
  { gravity := applySentinelFields sentinels p (toR zg.1)
    gravityMagSq := zg.2
    timeWarp := resolveTimeWarp tzones p }

/-! ## Bounded-stat mutations (health, structural integrity, alert level)

Every mutation of `gameState.health`, `gameState.structuralIntegrity` and a
guard's `userData.alertLevel` in the source clamps at the point of mutation:
* guard contact (game.js lines 596–599): `health = max(0, health - 0.5)`,
  `structuralIntegrity = max(0, structuralIntegrity - 0.3)`;
* fall damage (line 1022): `health = max(0, health - 20)`;
* dissolving-platform collapse (line 676):
  `structuralIntegrity = max(0, structuralIntegrity - 1)`;
* heavy-loot impact (line 838):
  `structuralIntegrity = max(0, structuralIntegrity - destructionValue)`;
* alert raise (line 583): `alertLevel = min(100, alertLevel + 3)`;
* alert decay (line 603): `alertLevel = max(0, alertLevel - 1)`;
* game-over respawn (lines 1119–1120): `health = 100`,
  `structuralIntegrity = 100`. -/

/-- One clamped mutation of the bounded stats, one constructor per mutation
site in the source. -/
inductive StatOp where
  | guardContact : StatOp
  | fallDamage : StatOp
  | dissolveCollapse : StatOp
  | lootImpact (destructionValue : ℚ) : StatOp
  | alertRaise : StatOp
  | alertDecay : StatOp
  | respawnReset : StatOp
deriving DecidableEq, Repr

/-- The bounded stats: player health, structural integrity, and one guard's
alert level. -/
structure Stats where
  health : ℚ
  structuralIntegrity : ℚ
  alertLevel : ℚ
deriving DecidableEq, Repr

/-- Apply one stat mutation exactly as the corresponding source line does. -/
def applyStatOp (s : Stats) : StatOp → Stats
  | .guardContact =>
      { s with health := max 0 (s.health - 1 / 2)
               structuralIntegrity := max 0 (s.structuralIntegrity - 3 / 10) }
  | .fallDamage => { s with health := max 0 (s.health - 20) }
  | .dissolveCollapse =>
      { s with structuralIntegrity := max 0 (s.structuralIntegrity - 1) }
  | .lootImpact d =>
      { s with structuralIntegrity := max 0 (s.structuralIntegrity - d) }
  | .alertRaise => { s with alertLevel := min 100 (s.alertLevel + 3) }
  | .alertDecay => { s with alertLevel := max 0 (s.alertLevel - 1) }
  | .respawnReset => { s with health := 100, structuralIntegrity := 100 }

/-- Apply a whole sequence of stat mutations (any interleaving the game can
produce within or across ticks). -/
def applyStatOps (s : Stats) (ops : List StatOp) : Stats := ops.foldl applyStatOp s

/-- All three stats lie in `[0, 100]`. -/
def StatsInRange (s : Stats) : Prop :=
  0 ≤ s.health ∧ s.health ≤ 100 ∧
  0 ≤ s.structuralIntegrity ∧ s.structuralIntegrity ≤ 100 ∧
  0 ≤ s.alertLevel ∧ s.alertLevel ≤ 100

instance : DecidablePred StatsInRange := fun s => by
  unfold StatsInRange; infer_instance

/-- A heavy-loot impact never carries a negative damage amount: in the source
`destructionValue = mass * 0.5` with `mass = lootSize³ * 100` and
`lootSize = 0.3 + random() * 0.4 > 0` (game.js lines 235, 260, 266). -/
def statOpNonnegDamage : StatOp → Prop
  | .lootImpact d => 0 ≤ d
  | _ => True

instance : DecidablePred statOpNonnegDamage := fun op => by
  cases op <;> unfold statOpNonnegDamage <;> infer_instance

/-! ## Echo-guard position history (`updateAI`, game.js lines 531–543)

```
userData.playerPositionHistory.push(playerPosition.clone());
if (userData.playerPositionHistory.length > ECHO_GUARD_HISTORY_LENGTH) {
    userData.playerPositionHistory.shift();
}
```

The buffer logic never inspects the stored values, so it is embedded
generically over the element type. -/

/-- Source constant `ECHO_GUARD_HISTORY_LENGTH = 60` (game.js line 8). -/
def ECHO_GUARD_HISTORY_LENGTH : ℕ := 60

/-- One tick's history update: append the current player position, then drop
the oldest element if the length now exceeds 60 (`push` then `shift`). -/
def pushHistory {α : Type} (h : List α) (p : α) : List α :=
  let h1 := h ++ [p]
  if ECHO_GUARD_HISTORY_LENGTH < h1.length then h1.tail else h1

/-- The buffer contents after the pushes of ticks `0, 1, …, n-1`, where `f t`
is the player's position at tick `t` (constant tick rate). -/
def historyAfter {α : Type} (f : ℕ → α) (n : ℕ) : List α :=
  (List.range n).foldl (fun h t => pushHistory h (f t)) []

/-! ## Ground collision and fall detection (`checkGroundCollision`,
game.js lines 986–1027) -/

/-- A platform as seen by the collision pass: its centre and the
`BoxGeometry` dimensions. -/
structure Platform where
  pos : Vec3
  width : ℚ
  height : ℚ
  depth : ℚ
deriving DecidableEq, Repr

/-- Source constant `VERTICAL_GRAVITY_THRESHOLD = 0.5` (game.js line 7). -/
def VERTICAL_GRAVITY_THRESHOLD : ℚ := 1 / 2

/-- The state threaded through `checkGroundCollision`: player position and
velocity, the on-ground result, plus the fields the fall branch writes. -/
structure CollisionState where
  pos : Vec3
  velocity : Vec3
  onGround : Bool
  health : ℚ
  shake : ℚ
deriving DecidableEq, Repr

/-- The per-platform body of the `world.platforms.forEach` loop
(game.js lines 991–1016): radius containment
(`√(horizontalDistSq) < max(width, depth)/2`, embedded squared) and, when
gravity is sufficiently vertical, the height-band test that snaps the player
onto the platform top and zeroes `velocity.y`. -/
def collidePlatform (gy : ℚ) (c : CollisionState) (pl : Platform) : CollisionState :=
  let platformTop := pl.pos.y + pl.height / 2
  let maxRadius := max pl.width pl.depth / 2
  if distXZSq c.pos pl.pos < maxRadius * maxRadius then
    if VERTICAL_GRAVITY_THRESHOLD < |gy| then
      if c.pos.y ≤ platformTop + 2 ∧ platformTop ≤ c.pos.y then
        { c with pos := { c.pos with y := platformTop + 2 }
                 velocity := { c.velocity with y := 0 }
                 onGround := true }
      else c
    else c
  else c

/-- The platform loop of `checkGroundCollision`, starting from
`onGround = false` (game.js lines 988–1016). -/
def collideLoop (platforms : List Platform) (gy : ℚ) (c : CollisionState) :
    CollisionState :=
  platforms.foldl (collidePlatform gy) { c with onGround := false }

/-- Full `checkGroundCollision` (game.js lines 986–1027): the platform loop,
then the fall check `if (playerPos.y < -50)` applying
`health = max(0, health - 20)`, `playerPos.set(0, 5, 0)`,
`velocity.set(0, 0, 0)`, `cameraShake.intensity = 1.0`.
(`gameState.canJump` is set to the resulting `onGround` flag.) -/
def checkGroundCollision (platforms : List Platform) (gy : ℚ)
    (c : CollisionState) : CollisionState :=
  let c1 := collideLoop platforms gy c
  if c1.pos.y < -50 then
    { c1 with health := max 0 (c1.health - 20)
              pos := ⟨0, 5, 0⟩
              velocity := ⟨0, 0, 0⟩
              shake := 1 }
  else c1

/-! ## Loot collection (`checkLootCollection`, game.js lines 822–861) -/

/-- A loot item as seen by the collection pass: the `visible` flag (cleared on
collection; collected loot is skipped entirely), its position, and the
physics metadata written by `generateLoot`. -/
structure LootItem where
  visible : Bool
  pos : Vec3
  mass : ℚ
  destructionValue : ℚ
deriving DecidableEq, Repr

/-- The slice of `gameState` (plus the camera-shake scalar) written by
`checkLootCollection`. -/
structure LootState where
  loot : ℕ
  lootRequired : ℕ
  levelComplete : Bool
  health : ℚ
  structuralIntegrity : ℚ
  shake : ℚ
deriving DecidableEq, Repr

/-- The body of the `world.lootItems.forEach` loop (game.js lines 826–859) for
one item: proximity (`distance < 2.5`, embedded squared as `distSq < 6.25`)
gated on `loot.visible`; on collection the item is hidden, the count
increments, heavy loot (`mass > 20`) applies clamped structural damage and a
mass-scaled shake, and `levelComplete` is set once
`loot >= lootRequired`. -/
def collectLootItem (p : Vec3) (s : LootState) (it : LootItem) :
    LootState × LootItem :=
  if it.visible ∧ distSq p it.pos < 25 / 4 then
    let s1 := { s with loot := s.loot + 1 }
    let s2 :=
      if 20 < it.mass then
        { s1 with structuralIntegrity := max 0 (s1.structuralIntegrity - it.destructionValue)
                  shake := 1 / 2 + it.mass / 100 }
      else { s1 with shake := 1 / 5 }
    let s3 := if s2.lootRequired ≤ s2.loot then { s2 with levelComplete := true } else s2
    (s3, { it with visible := false })
  else (s, it)

/-- The whole collection pass: fold the per-item body over the loot list,
returning the final state and the updated items. -/
def checkLootCollection (p : Vec3) (items : List LootItem) (s : LootState) :
    LootState × List LootItem :=
  let r := items.foldl
    (fun (acc : LootState × List LootItem) it =>
      let (s1, it1) := collectLootItem p acc.1 it
      (s1, acc.2 ++ [it1]))
    (s, [])
  r

/-! ## World generation (`ProceduralWorld`, game.js lines 94–335)

The seeded PRNG (`random()`, lines 107–111) and the platform construction of
`generateFloatingArchitecture` (lines 113–195): one main platform is pushed
unconditionally, then the `for (let i = 0; i < 15; i++)` loop pushes fifteen
spiral platforms.  Each loop iteration consumes eleven `random()` draws, in
source order: width, height, depth, material colour, emissive colour,
`rotation.x`, `rotation.z`, `canSlide`, `slideDirection.x`,
`slideDirection.z`, `canDissolve`. -/

/-- The linear congruential update of `random()`:
`seed = (seed * 9301 + 49297) % 233280`. -/
def lcgNext (seed : ℕ) : ℕ := (seed * 9301 + 49297) % 233280

/-- One call of `random()`: update the seed, return `seed / 233280 ∈ [0,1)`
and the new seed. -/
def randStep (seed : ℕ) : ℚ × ℕ :=
  let s := lcgNext seed
  ((s : ℚ) / 233280, s)

/-- A generated platform with the fields `generateFloatingArchitecture`
assigns.  Positions and rotations involve `π` and trigonometric functions and
are therefore `ℝ`-valued; the PRNG-drawn dimensions stay rational. -/
structure GenPlatform where
  posx : ℝ
  posy : ℝ
  posz : ℝ
  width : ℚ
  height : ℚ
  depth : ℚ
  rotx : ℝ
  rotz : ℝ
  structural : Bool
  mass : Option ℚ
  canSlide : Bool
  slideDirX : ℚ
  slideDirZ : ℚ
  canDissolve : Bool

/-- The main platform (game.js lines 117–130): a `20 × 1 × 20` box at the
origin with no rotation, sliding or dissolving behaviour; its `userData`
carries no `mass` field. -/
noncomputable def mainPlatform : GenPlatform :=
  { posx := 0, posy := 0, posz := 0
    width := 20, height := 1, depth := 20
    rotx := 0, rotz := 0
    structural := true, mass := none
    canSlide := false, slideDirX := 0, slideDirZ := 0
    canDissolve := false }

/-- One iteration of the spiral-platform loop (game.js lines 133–191) for
index `i`, threading the PRNG seed through the eleven draws in source order. -/
noncomputable def makeSpiralPlatform (i : ℕ) (seed : ℕ) : GenPlatform × ℕ :=
  let (rw, s1) := randStep seed
  let (rh, s2) := randStep s1
  let (rd, s3) := randStep s2
  let (_rcolor, s4) := randStep s3
  let (_remissive, s5) := randStep s4
  let (rrx, s6) := randStep s5
  let (rrz, s7) := randStep s6
  let (rslide, s8) := randStep s7
  let (rsx, s9) := randStep s8
  let (rsz, s10) := randStep s9
  let (rdiss, s11) := randStep s10
  let width := 3 + rw * 10
  let height := 1 / 2 + rh * 1
  let depth := 3 + rd * 10
  let angle : ℝ := (i : ℝ) * Real.pi / 3
  let radius : ℝ := 15 + (i : ℝ) * 3
  ({ posx := Real.cos angle * radius
     posy := 2 + (i : ℝ) * 3
     posz := Real.sin angle * radius
     width := width, height := height, depth := depth
     rotx := (rrx : ℝ) * Real.pi * (1 / 2)
     rotz := (rrz : ℝ) * Real.pi * (1 / 2)
     structural := true
     mass := some (width * height * depth)
     canSlide := decide (7 / 10 < rslide)
     slideDirX := (rsx - 1 / 2) * (5 / 100)
     slideDirZ := (rsz - 1 / 2) * (5 / 100)
     canDissolve := decide (8 / 10 < rdiss) }, s11)

/-- The fifteen-iteration spiral loop, platform `i₀ ≤ i < i₀ + count`. -/
noncomputable def makeSpiralPlatforms : (i₀ : ℕ) → (count : ℕ) → (seed : ℕ) →
    List GenPlatform × ℕ
  | _, 0, seed => ([], seed)
  | i₀, count + 1, seed =>
    let (p, s1) := makeSpiralPlatform i₀ seed
    let (ps, s2) := makeSpiralPlatforms (i₀ + 1) count s1
    (p :: ps, s2)

/-- Function `generateFloatingArchitecture` (game.js lines 113–195) restricted to the
`this.platforms` list it builds: the main platform followed by the fifteen
spiral platforms.  (The `generateImpossibleWalls` call at the end only touches
`this.dynamicElements`.) -/
noncomputable def generateFloatingArchitecture (seed : ℕ) : List GenPlatform × ℕ :=
  let (spirals, s1) := makeSpiralPlatforms 0 15 seed
  (mainPlatform :: spirals, s1)

/-- The platform index used by `generateLoot` for the `i`-th loot item
(game.js line 248): `const platformIndex = i % this.platforms.length`. -/
def lootPlatformIndex (i : ℕ) (platforms : List GenPlatform) : ℕ :=
  i % platforms.length

/-! ## Helper lemmas -/

/-- A fold in which every element satisfying `q` overwrites the accumulator
computes the image of the last satisfying element (or the initial value if
none satisfies `q`). -/
lemma foldl_last_override {α β : Type} (q : α → Prop) [DecidablePred q]
    (f : α → β) (acc : β) (l : List α) :
    l.foldl (fun b z => if q z then f z else b) acc
      = (((l.filter fun z => decide (q z)).getLast?).map f).getD acc := by
  induction l using List.reverseRecOn with
  | nil => rfl
  | append_singleton t z ih =>
    rw [List.foldl_append, List.filter_append]
    by_cases h : q z
    · simp [h]
    · simp [h, ih]

/-- The zone-override fold preserves the invariant that the stored squared
magnitude is the squared length of the stored vector. -/
lemma resolveGravityZones_magSq_invariant (zones : List GravityZone) (p : Vec3)
    (acc : Vec3 × ℚ) (h : normSq acc.1 = acc.2) :
    normSq (zones.foldl
        (fun a z => if gravityZoneOverlaps p z then (z.vec, normSq z.vec) else a)
        acc).1
      = (zones.foldl
        (fun a z => if gravityZoneOverlaps p z then (z.vec, normSq z.vec) else a)
        acc).2 := by
  induction zones generalizing acc with
  | nil => exact h
  | cons z t ih =>
    rw [List.foldl_cons]
    by_cases hz : gravityZoneOverlaps p z
    · exact ih _ (by rw [if_pos hz])
    · exact ih _ (by rwa [if_neg hz])

/-- Characterisation of the echo-history buffer: after the pushes of ticks
`0, …, n-1` the buffer is the last `min n 60` pushed values. -/
lemma historyAfter_eq {α : Type} (f : ℕ → α) (n : ℕ) :
    historyAfter f n = ((List.range n).map f).drop (n - 60) := by
  induction n with
  | zero => rfl
  | succ n ih =>
    have hstep : historyAfter f (n + 1) = pushHistory (historyAfter f n) (f n) := by
      unfold historyAfter
      rw [List.range_succ, List.foldl_append, List.foldl_cons, List.foldl_nil]
    rw [hstep, ih]
    have hlen : (((List.range n).map f).drop (n - 60)).length = n - (n - 60) := by
      simp
    unfold pushHistory
    rw [List.range_succ, List.map_append]
    simp only [List.map_cons, List.map_nil, ECHO_GUARD_HISTORY_LENGTH]
    by_cases h60 : 60 ≤ n
    · have hcond : 60 < (((List.range n).map f).drop (n - 60) ++ [f n]).length := by
        rw [List.length_append, hlen]
        simp only [List.length_singleton]
        omega
      rw [if_pos hcond]
      have hne : ((List.range n).map f).drop (n - 60) ≠ [] := by
        intro hnil
        rw [hnil] at hlen
        simp at hlen
        omega
      rw [List.tail_append_of_ne_nil hne, List.tail_drop]
      have hdrop : n - 60 + 1 = n + 1 - 60 := by omega
      rw [hdrop, List.drop_append_of_le_length
        (by simp only [List.length_map, List.length_range]; omega)]
    · have hcond : ¬ 60 < (((List.range n).map f).drop (n - 60) ++ [f n]).length := by
        rw [List.length_append, hlen]
        simp only [List.length_singleton]
        omega
      rw [if_neg hcond]
      have h1 : n - 60 = 0 := by omega
      have h2 : n + 1 - 60 = 0 := by omega
      rw [h1, h2, List.drop_zero, List.drop_zero]

/-- Two scalings of a nonzero vector by distinct scalars differ. -/
lemma smul_ne_smul_of_ne {c c' : ℚ} {g : Vec3} (hg : g ≠ ⟨0, 0, 0⟩)
    (hc : c ≠ c') : smul c g ≠ smul c' g := by
  intro h
  apply hg
  have hx : c * g.x = c' * g.x := congrArg Vec3.x h
  have hy : c * g.y = c' * g.y := congrArg Vec3.y h
  have hz : c * g.z = c' * g.z := congrArg Vec3.z h
  have hsub : c - c' ≠ 0 := sub_ne_zero_of_ne hc
  have gx : g.x = 0 := by
    by_contra hgx
    exact hc (mul_right_cancel₀ hgx (by linarith))
  have gy : g.y = 0 := by
    by_contra hgy
    exact hc (mul_right_cancel₀ hgy (by linarith))
  have gz : g.z = 0 := by
    by_contra hgz
    exact hc (mul_right_cancel₀ hgz (by linarith))
  cases g
  simp_all

/-- Adding the same vector preserves distinctness. -/
lemma vadd_left_cancel_ne {v a b : Vec3} (h : a ≠ b) : vadd v a ≠ vadd v b := by
  intro he
  apply h
  have hx : v.x + a.x = v.x + b.x := congrArg Vec3.x he
  have hy : v.y + a.y = v.y + b.y := congrArg Vec3.y he
  have hz : v.z + a.z = v.z + b.z := congrArg Vec3.z he
  cases a
  cases b
  simp_all

/-- The spiral-platform loop produces exactly `count` platforms. -/
lemma makeSpiralPlatforms_length :
    ∀ (count i₀ seed : ℕ), (makeSpiralPlatforms i₀ count seed).1.length = count := by
  intro count
  induction count with
  | zero => intro i₀ seed; rfl
  | succ k ih =>
    intro i₀ seed
    simp only [makeSpiralPlatforms]
    rw [List.length_cons, ih]

/-! ## Claim theorems -/

/-- C1 (counterexample).  The claim "for every gravity direction g and raw
movement intent m, the applied movement p satisfies dot(p, g) ≈ 0" fails at a
concrete reachable input: with gravity set by the SIDEWAYS gravity zone to
`(-1, -0.5, 0)` (a zone centred at the player's position), yaw 0
(camera right vector `(1, 0, 0)`), and the intent velocity produced by one
frame of rightward input from rest (`accelVel 0 1 15 (16/1000) = -6/25`), the
applied movement `p` is nonzero and `2·dot(p,g)² > ‖p‖²·‖g‖²`, so the angle
between `p` and `g` is below 45° — nowhere near orthogonal. -/
theorem c1_counterexample :
    (resolveGravityZones [⟨⟨0, 10, 0⟩, ⟨-1, -1/2, 0⟩⟩] ⟨0, 10, 0⟩).1 = ⟨-1, -1/2, 0⟩ ∧
    accelVel 0 1 15 (16/1000) = -(6/25) ∧
    dotv (appliedMove (-(6/25)) 0 (16/1000) 1 0) ⟨-1, -1/2, 0⟩ ≠ 0 ∧
    normSq (appliedMove (-(6/25)) 0 (16/1000) 1 0) ≠ 0 ∧
    2 * dotv (appliedMove (-(6/25)) 0 (16/1000) 1 0) ⟨-1, -1/2, 0⟩
        * dotv (appliedMove (-(6/25)) 0 (16/1000) 1 0) ⟨-1, -1/2, 0⟩
      > normSq (appliedMove (-(6/25)) 0 (16/1000) 1 0) * normSq (⟨-1, -1/2, 0⟩ : Vec3) := by
  refine ⟨?_, ?_, ?_, ?_, ?_⟩
  · norm_num [resolveGravityZones, gravityZoneOverlaps, Vec3.distXZSq]
  · norm_num [accelVel]
  · norm_num [appliedMove, Vec3.vadd, Vec3.smul, Vec3.dotv, moveRightVec, moveForwardVec]
  · norm_num [appliedMove, Vec3.vadd, Vec3.smul, Vec3.normSq, moveRightVec, moveForwardVec]
  · norm_num [appliedMove, Vec3.vadd, Vec3.smul, Vec3.dotv, Vec3.normSq, moveRightVec,
      moveForwardVec]

/-- C1 (amended).  The movement actually applied by the physics step is never
projected onto the plane orthogonal to the current gravity: for every intent
velocity, frame delta, and camera-right vector, the applied movement lies in
the fixed world-horizontal plane (its y-component is 0, equivalently it is
orthogonal to the *default* gravity direction `(0, -1, 0)`).  Hence
`dot(p, g) = 0` holds when gravity is vertical, but not for general gravity
directions `g`. -/
theorem c1_move_horizontal (velx velz delta rx rz gy : ℚ) :
    (appliedMove velx velz delta rx rz).y = 0 ∧
    dotv (appliedMove velx velz delta rx rz) ⟨0, gy, 0⟩ = 0 := by
  constructor
  · simp [appliedMove, vadd, smul, moveRightVec, moveForwardVec]
  · simp [appliedMove, vadd, smul, dotv, moveRightVec, moveForwardVec]

/-- C2 (counterexample).  The claim "a second gravity-rotation request within
0.6 s of the previous one is silently ignored and leaves the gravity vector
unchanged" fails: the source has no cooldown state at all.  Two consecutive
frames (0.016 s apart, well under 0.6 s) that both request a left rotation,
starting from the initial state (angle 0, gravity `(0, -1, 0)`), produce two
different gravity vectors: the second request changes gravity again. -/
theorem c2_counterexample :
    (16/1000 : ℝ) < 6/10 ∧
    (applyRotationControls true false
        (applyRotationControls true false ⟨0, ⟨0, -1, 0⟩⟩)).gravity.y
      ≠ (applyRotationControls true false ⟨0, ⟨0, -1, 0⟩⟩).gravity.y := by
  constructor
  · norm_num
  · simp only [applyRotationControls, gravityOfRot, GRAVITY_ROTATION_SPEED,
      if_true, if_false, Bool.false_eq_true, ite_false, ite_true]
    intro h
    have h1 : Real.cos (0 + 5/100 + 5/100) = Real.cos (0 + 5/100) := by linarith
    have hlt : Real.cos (0 + 5/100 + 5/100) < Real.cos (0 + 5/100) := by
      apply Real.strictAntiOn_cos
      · constructor
        · norm_num
        · linarith [Real.pi_gt_three]
      · constructor
        · norm_num
        · linarith [Real.pi_gt_three]
      · norm_num
    linarith

/-- C2 (amended).  There is no rotation cooldown: every frame in which a
rotation key is held applies a further ±0.05-radian rotation and rewrites the
gravity vector.  In particular, for any current rotation angle `a` in the
principal range, a second left-rotation request issued one frame (0.016 s
< 0.6 s) after the first advances the angle again and produces a gravity
vector different from the one after the first request — the second request is
not ignored. -/
theorem c2_no_cooldown (a : ℝ) (h0 : 0 ≤ a) (hpi : a + 1/10 ≤ Real.pi) :
    (applyRotationControls true false ⟨a, gravityOfRot a⟩).gravityRotation
        = a + GRAVITY_ROTATION_SPEED ∧
    (applyRotationControls true false
        (applyRotationControls true false ⟨a, gravityOfRot a⟩)).gravity.y
      ≠ (applyRotationControls true false ⟨a, gravityOfRot a⟩).gravity.y := by
  constructor
  · simp [applyRotationControls]
  · simp only [applyRotationControls, gravityOfRot, GRAVITY_ROTATION_SPEED,
      if_true, if_false, Bool.false_eq_true, ite_false, ite_true]
    intro h
    have h1 : Real.cos (a + 5/100 + 5/100) = Real.cos (a + 5/100) := by linarith
    have hlt : Real.cos (a + 5/100 + 5/100) < Real.cos (a + 5/100) := by
      apply Real.strictAntiOn_cos
      · constructor
        · linarith
        · linarith
      · constructor
        · linarith
        · linarith
      · linarith
    linarith

/-- C2 (witness): the amended theorem at the concrete angle `a = 0`. -/
theorem c2_no_cooldown_witness :
    (applyRotationControls true false ⟨0, gravityOfRot 0⟩).gravityRotation
        = 0 + GRAVITY_ROTATION_SPEED ∧
    (applyRotationControls true false
        (applyRotationControls true false ⟨0, gravityOfRot 0⟩)).gravity.y
      ≠ (applyRotationControls true false ⟨0, gravityOfRot 0⟩).gravity.y :=
  c2_no_cooldown 0 (le_refl 0) (by linarith [Real.pi_gt_three])

/-- C3 (confirmed).  On every tick `checkZones` recomputes the effective
gravity and time-warp from scratch: (1) its result is completely independent
of the previous tick's gravity/magnitude/time-warp state, so no drift can
accumulate; (2) the gravity pass starts from the defaults
(gravity `(0,-1,0)`, squared magnitude `1`, i.e. magnitude 1.0) and ends with
the values of the *last* overlapping gravity zone in check order (defaults if
none overlaps); (3) the time-warp pass starts from the default `1.0` and ends
with the warp of the last overlapping time zone (1.0 if none overlaps). -/
theorem c3_checkZones_from_scratch :
    (∀ (gz : List GravityZone) (tz : List TimeZone) (se : List SentinelGuard)
        (p : Vec3) (s₁ s₂ : ZoneState),
        checkZones gz tz se p s₁ = checkZones gz tz se p s₂) ∧
    (∀ (gz : List GravityZone) (p : Vec3),
        resolveGravityZones gz p
          = (((gz.filter fun z => decide (gravityZoneOverlaps p z)).getLast?).map
              (fun z => (z.vec, normSq z.vec))).getD (⟨0, -1, 0⟩, 1)) ∧
    (∀ (tz : List TimeZone) (p : Vec3),
        resolveTimeWarp tz p
          = (((tz.filter fun z => decide (timeZoneOverlaps p z)).getLast?).map
              (fun z => z.warp)).getD 1) := by
  refine ⟨fun _ _ _ _ _ _ => rfl, ?_, ?_⟩
  · intro gz p
    exact foldl_last_override (gravityZoneOverlaps p)
      (fun z => (z.vec, normSq z.vec)) (⟨0, -1, 0⟩, 1) gz
  · intro tz p
    exact foldl_last_override (timeZoneOverlaps p) (fun z => z.warp) 1 tz

/-- C4 (counterexample).  The claim "the fixed physics step size stays
wall-clock-real (1/60 s) and is never scaled by the time-warp scalar" fails:
the source computes `delta = 0.016 * gameState.timeWarp` (game.js line 1035)
and integrates gravity, velocity and position with that scaled delta.  In the
SLOW time zone (`timeWarp = 0.3`) the integration delta is `0.0048`, not
`1/60` (and even at `timeWarp = 1` it is `0.016 ≠ 1/60`); one physics step
from rest under default gravity then changes the velocity by `-3/1250`, not by
the `-1/120` a `1/60` step would give. -/
theorem c4_counterexample :
    physDelta (3/10) = 48/10000 ∧
    physDelta (3/10) ≠ 1/60 ∧
    physDelta 1 ≠ 1/60 ∧
    (physicsStep ⟨⟨0, -1, 0⟩, 1, 3/10, ⟨0, 0, 0⟩, ⟨0, 5, 0⟩⟩).velocity.y = -(3/1250) ∧
    (-(3/1250) : ℚ) ≠ (1/2) * 1 * (1/60) * (-1) := by
  refine ⟨?_, ?_, ?_, ?_, ?_⟩
  · norm_num [physDelta]
  · norm_num [physDelta]
  · norm_num [physDelta]
  · norm_num [physicsStep, physDelta, Vec3.vadd, Vec3.smul]
  · norm_num

/-- C4 (amended).  The time-warp scalar multiplies the per-tick movement
deltas of guards and cosmetic loot animation *and also* the physics
integration delta itself: the per-frame step used to integrate player
gravity, velocity and position is `0.016 · timeWarp` seconds (not a constant
wall-clock 1/60 s).  Consequently two states differing only in the time-warp
scalar integrate to different velocities whenever gravity is nonzero. -/
theorem c4_timewarp_scales_physics (s : PhysState) (speed rotationSpeed tw' : ℚ)
    (htw : s.timeWarp ≠ tw') (hmag : s.gravityMagnitude ≠ 0)
    (hg : s.gravity ≠ ⟨0, 0, 0⟩) :
    physDelta s.timeWarp = (16/1000) * s.timeWarp ∧
    (physicsStep s).velocity
        = vadd s.velocity (smul ((1/2) * s.gravityMagnitude * ((16/1000) * s.timeWarp)) s.gravity) ∧
    (physicsStep s).position
        = vadd s.position (smul ((16/1000) * s.timeWarp) (physicsStep s).velocity) ∧
    guardMoveSpeed speed s.timeWarp = speed * s.timeWarp ∧
    lootRotationDelta rotationSpeed s.timeWarp = rotationSpeed * s.timeWarp ∧
    (physicsStep s).velocity ≠ (physicsStep { s with timeWarp := tw' }).velocity := by
  refine ⟨rfl, rfl, rfl, rfl, rfl, ?_⟩
  simp only [physicsStep, physDelta]
  apply vadd_left_cancel_ne
  apply smul_ne_smul_of_ne hg
  intro h
  apply htw
  have h16 : (1/2 : ℚ) * s.gravityMagnitude * (16/1000) ≠ 0 := by
    intro h0
    apply hmag
    by_contra hmag'
    exact absurd h0 (by positivity)
  field_simp at h
  rcases h with h | h
  · exact h
  · exact absurd h hmag

/-- C4 (witness): the amended theorem at a concrete state — default gravity,
magnitude 1, SLOW-zone time-warp 0.3 versus time-warp 1. -/
theorem c4_timewarp_scales_physics_witness :
    (physicsStep ⟨⟨0, -1, 0⟩, 1, 3/10, ⟨0, 0, 0⟩, ⟨0, 5, 0⟩⟩).velocity
      ≠ (physicsStep { (⟨⟨0, -1, 0⟩, 1, 3/10, ⟨0, 0, 0⟩, ⟨0, 5, 0⟩⟩ : PhysState)
            with timeWarp := 1 }).velocity :=
  (c4_timewarp_scales_physics ⟨⟨0, -1, 0⟩, 1, 3/10, ⟨0, 0, 0⟩, ⟨0, 5, 0⟩⟩ 0 0 1
    (by norm_num) (by norm_num) (by simp)).2.2.2.2.2

/-- Stepping one clamped stat mutation preserves the `[0,100]` range (each
mutation site in the source clamps at the point of mutation). -/
lemma applyStatOp_in_range {s : Stats} {op : StatOp} (hs : StatsInRange s)
    (hop : statOpNonnegDamage op) : StatsInRange (applyStatOp s op) := by
  obtain ⟨h1, h2, h3, h4, h5, h6⟩ := hs
  cases op with
  | guardContact =>
    exact ⟨le_max_left _ _, max_le (by norm_num) (by linarith),
      le_max_left _ _, max_le (by norm_num) (by linarith), h5, h6⟩
  | fallDamage =>
    exact ⟨le_max_left _ _, max_le (by norm_num) (by linarith), h3, h4, h5, h6⟩
  | dissolveCollapse =>
    exact ⟨h1, h2, le_max_left _ _, max_le (by norm_num) (by linarith), h5, h6⟩
  | lootImpact d =>
    have hd : 0 ≤ d := hop
    exact ⟨h1, h2, le_max_left _ _, max_le (by norm_num) (by linarith), h5, h6⟩
  | alertRaise =>
    exact ⟨h1, h2, h3, h4, le_min (by norm_num) (by linarith), min_le_left _ _⟩
  | alertDecay =>
    exact ⟨h1, h2, h3, h4, le_max_left _ _, max_le (by norm_num) (by linarith)⟩
  | respawnReset =>
    exact ⟨by norm_num [applyStatOp], by norm_num [applyStatOp],
      by norm_num [applyStatOp], by norm_num [applyStatOp], h5, h6⟩

/-- C5 (confirmed).  Under any sequence of the source's damage, heal and
decay mutations — including repeated large loot-impact damage within one tick
— player health, structural integrity and a guard's alert level stay within
`[0, 100]`, provided they start there (the game starts all three in range:
health 100, integrity 100, alert 0). -/
theorem c5_stats_clamped (ops : List StatOp) (s : Stats) (hs : StatsInRange s)
    (hops : ∀ op ∈ ops, statOpNonnegDamage op) :
    StatsInRange (applyStatOps s ops) := by
  induction ops generalizing s with
  | nil => exact hs
  | cons op t ih =>
    exact ih _ (applyStatOp_in_range hs (hops op (List.mem_cons_self op t)))
      (fun o ho => hops o (List.mem_cons_of_mem op ho))

/-- C5 (witness): the clamping theorem at the game's initial stats and a
concrete tick containing two large loot impacts, guard contact, fall damage
and alert moves. -/
theorem c5_stats_clamped_witness :
    StatsInRange (applyStatOps ⟨100, 100, 0⟩
      [.lootImpact 1000, .lootImpact 1000, .guardContact, .fallDamage,
       .alertRaise, .alertDecay]) := by
  apply c5_stats_clamped
  · refine ⟨by norm_num, by norm_num, by norm_num, by norm_num, by norm_num, by norm_num⟩
  · intro op hop
    fin_cases hop <;> norm_num [statOpNonnegDamage]

/-- C6 (counterexample).  The claim "after more than 60 pushes the oldest
buffer element is the player's position from exactly 60 ticks prior" is off
by one.  Push the positions of ticks `0, 1, …, 60` (61 pushes, one per tick,
recording the tick number itself): after the push of tick 60 the buffer's
oldest element is the position from tick 1 — 59 ticks prior to the current
tick 60 — whereas the claim predicts the position from tick `60 - 60 = 0`.
(The length bound itself holds: the buffer has exactly 60 elements.) -/
theorem c6_counterexample :
    (historyAfter (fun t => t) 61).length = 60 ∧
    (historyAfter (fun t => t) 61).head? = some 1 ∧
    (1 : ℕ) ≠ 60 - 60 := by
  refine ⟨?_, ?_, by decide⟩
  · rw [historyAfter_eq]
    simp
  · rw [historyAfter_eq]
    rw [List.head?_drop]
    simp

/-- C6 (amended).  For every echo guard the position-history buffer never
exceeds 60 elements, and once at least 60 pushes have happened (pushes at
ticks `0, …, n-1`, one per tick at constant tick rate) its length is exactly
60 and its oldest element is the player's position from tick `n - 60` — the
60th-most-recent sample, i.e. 59 ticks prior to the most recent push, not 60. -/
theorem c6_echo_buffer (α : Type) (f : ℕ → α) (n : ℕ) :
    (historyAfter f n).length ≤ 60 ∧
    (60 ≤ n →
      (historyAfter f n).length = 60 ∧
      (historyAfter f n).head? = some (f (n - 60))) := by
  rw [historyAfter_eq]
  constructor
  · simp only [List.length_drop, List.length_map, List.length_range]
    omega
  · intro h60
    constructor
    · simp only [List.length_drop, List.length_map, List.length_range]
      omega
    · rw [List.head?_drop]
      have hlt : n - 60 < n := by omega
      simp [List.getElem?_map, List.getElem?_range hlt]

/-- C6 (witness): the amended theorem after exactly 60 pushes of the tick
numbers themselves — the buffer is full and its oldest element is the
position from tick 0. -/
theorem c6_echo_buffer_witness :
    (historyAfter (fun t => t) 60).length = 60 ∧
    (historyAfter (fun t => t) 60).head? = some (60 - 60) :=
  (c6_echo_buffer ℕ (fun t => t) 60).2 (le_refl 60)

/-- C7 (counterexample).  The claim "the gravity direction vector is
unit-length after every operation that mutates it, with the magnitude carried
separately" fails at zone resolution: a LOW gravity zone
(`gravityVector = (0, -0.3, 0)`) centred at the player copies its *raw*
vector into `gameState.gravity` (setting the separate magnitude to its
length) without normalising the direction, so after `checkZones` the gravity
vector has squared length `9/100 ≠ 1`. -/
theorem c7_counterexample :
    (checkZones [⟨⟨0, 10, 0⟩, ⟨0, -3/10, 0⟩⟩] [] [] ⟨0, 10, 0⟩
        ⟨toR ⟨0, -1, 0⟩, 1, 1⟩).gravity.y = ((-3/10 : ℚ) : ℝ) ∧
    RVec3.normSqR (checkZones [⟨⟨0, 10, 0⟩, ⟨0, -3/10, 0⟩⟩] [] [] ⟨0, 10, 0⟩
        ⟨toR ⟨0, -1, 0⟩, 1, 1⟩).gravity = 9/100 ∧
    (9/100 : ℝ) ≠ 1 := by
  have hres : resolveGravityZones [⟨⟨0, 10, 0⟩, ⟨0, -3/10, 0⟩⟩] ⟨0, 10, 0⟩
      = (⟨0, -3/10, 0⟩, 9/100) := by
    norm_num [resolveGravityZones, gravityZoneOverlaps, Vec3.distXZSq, Vec3.normSq]
  have hcz : (checkZones [⟨⟨0, 10, 0⟩, ⟨0, -3/10, 0⟩⟩] [] [] ⟨0, 10, 0⟩
        ⟨toR ⟨0, -1, 0⟩, 1, 1⟩).gravity
      = applySentinelFields [] ⟨0, 10, 0⟩
          (toR (resolveGravityZones [⟨⟨0, 10, 0⟩, ⟨0, -3/10, 0⟩⟩] ⟨0, 10, 0⟩).1) := rfl
  rw [hres] at hcz
  have hsent : applySentinelFields [] (⟨0, 10, 0⟩ : Vec3) (toR ⟨0, -3/10, 0⟩)
      = toR ⟨0, -3/10, 0⟩ := rfl
  rw [hsent] at hcz
  rw [hcz]
  refine ⟨by simp [toR], ?_, by norm_num⟩
  simp only [toR, RVec3.normSqR]
  push_cast
  norm_num

/-- C7 (amended).  The source does not maintain the unit-direction
convention.  What does hold: (1) the reset default `(0, -1, 0)` is unit; (2)
the gravity written by a player rotation, `(sin a, -cos a, 0)`, is unit for
every angle; (3) after the gravity-zone pass the *squared length of the
stored vector always equals the stored squared magnitude* (the source keeps
`gravity = zoneVector` and `gravityMagnitude = |zoneVector|`, so the
direction is unit only when the zone vector itself is) — and the sentinel
blend then lerps without renormalising. -/
theorem c7_gravity_length_convention :
    normSq ⟨0, -1, 0⟩ = 1 ∧
    (∀ a : ℝ, RVec3.normSqR (gravityOfRot a) = 1) ∧
    (∀ (gz : List GravityZone) (p : Vec3),
        normSq (resolveGravityZones gz p).1 = (resolveGravityZones gz p).2) := by
  refine ⟨by norm_num [Vec3.normSq], ?_, ?_⟩
  · intro a
    show Real.sin a * Real.sin a + -Real.cos a * -Real.cos a + 0 * 0 = 1
    have := Real.sin_sq_add_cos_sq a
    nlinarith [this]
  · intro gz p
    exact resolveGravityZones_magSq_invariant gz p (⟨0, -1, 0⟩, 1)
      (by norm_num [Vec3.normSq])

/-- C8 (counterexample).  The claim ties the void-fall trigger to "farther
than the threshold distance from all room/platform anchors", but the source
triggers on `playerPos.y < -50` only (game.js line 1021).  A player at
`(1000, 10, 0)` is more than 50 units (indeed more than 900) from the anchor
of every platform of a world containing the main platform, yet
`checkGroundCollision` applies none of the claimed effects: health stays 100
(not `100 - 20`), the position is not reset to spawn, and the velocity is
kept. -/
theorem c8_counterexample :
    (∀ pl ∈ [(⟨⟨0, 0, 0⟩, 20, 1, 20⟩ : Platform)],
        50 * 50 < distSq ⟨1000, 10, 0⟩ pl.pos) ∧
    checkGroundCollision [⟨⟨0, 0, 0⟩, 20, 1, 20⟩] (-1)
        ⟨⟨1000, 10, 0⟩, ⟨2, -3, 0⟩, false, 100, 0⟩
      = ⟨⟨1000, 10, 0⟩, ⟨2, -3, 0⟩, false, 100, 0⟩ ∧
    (100 : ℚ) ≠ max 0 (100 - 20) := by
  refine ⟨?_, ?_, by norm_num⟩
  · intro pl hpl
    simp only [List.mem_singleton] at hpl
    subst hpl
    norm_num [Vec3.distSq, Vec3.normSq]
  · show (if _ then _ else _) = _
    norm_num [checkGroundCollision, collideLoop, collidePlatform,
      VERTICAL_GRAVITY_THRESHOLD, Vec3.distXZSq]

/-- C8 (amended).  The void-fall trigger is the player's post-collision
y-coordinate dropping below −50 (not a distance-from-anchors test).  Exactly
when it fires, health is reduced by exactly 20 clamped at a minimum of 0, the
position is reset to the spawn point `(0, 5, 0)`, the velocity is zeroed, and
the camera shake is set to 1; when it does not fire, the state is exactly the
platform-collision result. -/
theorem c8_void_fall (platforms : List Platform) (gy : ℚ) (c : CollisionState) :
    ((collideLoop platforms gy c).pos.y < -50 →
      checkGroundCollision platforms gy c
        = { collideLoop platforms gy c with
            health := max 0 ((collideLoop platforms gy c).health - 20)
            pos := ⟨0, 5, 0⟩
            velocity := ⟨0, 0, 0⟩
            shake := 1 }) ∧
    (¬ (collideLoop platforms gy c).pos.y < -50 →
      checkGroundCollision platforms gy c = collideLoop platforms gy c) := by
  constructor
  · intro h
    unfold checkGroundCollision
    rw [if_pos h]
  · intro h
    unfold checkGroundCollision
    rw [if_neg h]

/-- C8 (witness): the amended theorem at a concrete fall — no platforms,
player at `(0, -60, 0)` with velocity `(0, -5, 0)` and health 50: health
becomes 30, position resets to `(0, 5, 0)`, velocity is zeroed, shake is 1. -/
theorem c8_void_fall_witness :
    checkGroundCollision [] (-1) ⟨⟨0, -60, 0⟩, ⟨0, -5, 0⟩, true, 50, 0⟩
      = { collideLoop [] (-1) ⟨⟨0, -60, 0⟩, ⟨0, -5, 0⟩, true, 50, 0⟩ with
          health := max 0 ((collideLoop [] (-1)
            ⟨⟨0, -60, 0⟩, ⟨0, -5, 0⟩, true, 50, 0⟩).health - 20)
          pos := ⟨0, 5, 0⟩
          velocity := ⟨0, 0, 0⟩
          shake := 1 } :=
  (c8_void_fall [] (-1) ⟨⟨0, -60, 0⟩, ⟨0, -5, 0⟩, true, 50, 0⟩).1 (by norm_num [collideLoop])

/-- Per-item collection facts used by C9: already-collected loot is a no-op,
collection never touches health, collection increments the count by exactly
one, and the level-complete flag after the item is the old flag OR'd with
"the new count reached the requirement" (so it is set exactly at the Nth
collection and only ever monotonically). -/
lemma collectLootItem_facts (p : Vec3) (s : LootState) (it : LootItem) :
    (it.visible = false → collectLootItem p s it = (s, it)) ∧
    ((collectLootItem p s it).1.health = s.health) ∧
    (s.levelComplete = true → (collectLootItem p s it).1.levelComplete = true) ∧
    (it.visible = true → distSq p it.pos < 25 / 4 →
      (collectLootItem p s it).1.loot = s.loot + 1 ∧
      (collectLootItem p s it).2.visible = false ∧
      ((collectLootItem p s it).1.levelComplete
          = (s.levelComplete || decide (s.lootRequired ≤ s.loot + 1)))) := by
  refine ⟨?_, ?_, ?_, ?_⟩
  · intro h
    unfold collectLootItem
    rw [if_neg]
    simp [h]
  · unfold collectLootItem
    split
    · dsimp only
      split
      · split <;> rfl
      · split <;> rfl
    · rfl
  · intro h
    unfold collectLootItem
    split
    · dsimp only
      split
      · split
        · rfl
        · simpa using h
      · split
        · rfl
        · simpa using h
    · exact h
  · intro hv hd
    unfold collectLootItem
    rw [if_pos ⟨hv, hd⟩]
    refine ⟨?_, rfl, ?_⟩
    · dsimp only
      split
      · split <;> rfl
      · split <;> rfl
    · dsimp only
      by_cases hreq : s.lootRequired ≤ s.loot + 1 <;> split <;> simp [hreq]

/-- If no item of the list is collectible at the player's position (each is
either already collected or out of range), the whole collection pass is a
no-op on the state and on the items. -/
lemma checkLootCollection_noop (p : Vec3) (items : List LootItem) (s : LootState)
    (h : ∀ it ∈ items, it.visible = false ∨ ¬ distSq p it.pos < 25 / 4) :
    checkLootCollection p items s = (s, items) := by
  unfold checkLootCollection
  suffices hgen : ∀ (acc : List LootItem),
      items.foldl
        (fun (a : LootState × List LootItem) it =>
          let r := collectLootItem p a.1 it
          (r.1, a.2 ++ [r.2]))
        (s, acc) = (s, acc ++ items) by
    simpa using hgen []
  induction items with
  | nil => intro acc; simp
  | cons it t ih =>
    intro acc
    have hit : collectLootItem p s it = (s, it) := by
      unfold collectLootItem
      rcases h it (List.mem_cons_self it t) with hv | hd
      · rw [if_neg]
        simp [hv]
      · rw [if_neg]
        intro hc
        exact hd hc.2
    rw [List.foldl_cons]
    simp only [hit]
    rw [ih (fun x hx => h x (List.mem_cons_of_mem it hx)) (acc ++ [it])]
    simp

/-- C9 (confirmed).  Loot collection is idempotent and completes the level
exactly once: an already-collected (invisible) item is skipped entirely — no
effect on loot count, level-complete, health or structural integrity (and a
pass over a list with no collectible item is the identity); collection never
changes health; the level-complete flag is monotone and, on collecting a
visible in-range item, the count increments by one and the flag becomes true
precisely when the new count reaches the required count — i.e. at the Nth
required item (N = `lootRequired`, 10 on level 1) and never again at a later
state change, since afterwards it simply stays true. -/
theorem c9_loot_collection (p : Vec3) (s : LootState) (it : LootItem)
    (items : List LootItem) :
    (it.visible = false → collectLootItem p s it = (s, it)) ∧
    ((collectLootItem p s it).1.health = s.health) ∧
    (s.levelComplete = true → (collectLootItem p s it).1.levelComplete = true) ∧
    (it.visible = true → distSq p it.pos < 25 / 4 →
      (collectLootItem p s it).1.loot = s.loot + 1 ∧
      (collectLootItem p s it).2.visible = false ∧
      ((collectLootItem p s it).1.levelComplete
          = (s.levelComplete || decide (s.lootRequired ≤ s.loot + 1)))) ∧
    ((∀ x ∈ items, x.visible = false ∨ ¬ distSq p x.pos < 25 / 4) →
      checkLootCollection p items s = (s, items)) :=
  ⟨(collectLootItem_facts p s it).1, (collectLootItem_facts p s it).2.1,
   (collectLootItem_facts p s it).2.2.1, (collectLootItem_facts p s it).2.2.2,
   checkLootCollection_noop p items s⟩

/-- C9 (witness): the theorem at a concrete input — an already-collected item
near the player is skipped (state and item unchanged), and a one-item pass
over it is the identity. -/
theorem c9_loot_collection_witness :
    collectLootItem ⟨0, 0, 0⟩ ⟨9, 10, false, 100, 100, 0⟩ ⟨false, ⟨0, 1, 0⟩, 30, 15⟩
      = (⟨9, 10, false, 100, 100, 0⟩, ⟨false, ⟨0, 1, 0⟩, 30, 15⟩) ∧
    checkLootCollection ⟨0, 0, 0⟩ [⟨false, ⟨0, 1, 0⟩, 30, 15⟩] ⟨9, 10, false, 100, 100, 0⟩
      = (⟨9, 10, false, 100, 100, 0⟩, [⟨false, ⟨0, 1, 0⟩, 30, 15⟩]) :=
  ⟨(c9_loot_collection ⟨0, 0, 0⟩ ⟨9, 10, false, 100, 100, 0⟩ ⟨false, ⟨0, 1, 0⟩, 30, 15⟩
      []).1 rfl,
   (c9_loot_collection ⟨0, 0, 0⟩ ⟨9, 10, false, 100, 100, 0⟩ ⟨false, ⟨0, 1, 0⟩, 30, 15⟩
      [⟨false, ⟨0, 1, 0⟩, 30, 15⟩]).2.2.2.2
      (fun x hx => by
        simp only [List.mem_singleton] at hx
        subst hx
        exact Or.inl rfl)⟩

/-- C10 (confirmed).  `generateFloatingArchitecture` unconditionally pushes
the main platform and then fifteen spiral platforms, so whenever
`generateLoot` runs after it the platform list has length 16 — in particular
it is non-empty, the index computation `i % platforms.length` never divides
by zero, and the resulting platform index is always in bounds. -/
theorem c10_loot_index_safe (seed : ℕ) :
    (generateFloatingArchitecture seed).1.length = 16 ∧
    0 < (generateFloatingArchitecture seed).1.length ∧
    (∀ i : ℕ,
      lootPlatformIndex i (generateFloatingArchitecture seed).1
        < (generateFloatingArchitecture seed).1.length) := by
  have hlen : (generateFloatingArchitecture seed).1.length = 16 := by
    unfold generateFloatingArchitecture
    simp only [List.length_cons]
    rw [makeSpiralPlatforms_length]
  refine ⟨hlen, by omega, ?_⟩
  intro i
  unfold lootPlatformIndex
  apply Nat.mod_lt
  omega

end GravityHeist
